import Mathlib

/-!
Shallow embedding of the strategy-and-execution engine of
`Solana-Trading-Bot.py` (a buy-low/sell-high SOL trading bot), together with
theorems settling the specification's claims about it.

Conventions of the embedding:
* Python floats / `Decimal` values are modelled as `ℚ` (the claims concern
  comparison and threshold logic, not floating-point rounding).
* The global `STATE` dict becomes the structure `BotState`; `None` becomes
  `Option.none`.  Python truthiness of `STATE["last_buy_price"]`
  (`None` and `0.0` are falsy) is modelled explicitly by `truthyOptQ`.
* Fallible code (`raise`) returns `Except String`; the exact exception
  messages of the source are kept.
* External effects (CoinGecko snapshot, Jupiter quote/swap responses, the
  optional SDK, the filesystem) are inputs to the embedded functions: each
  function is deterministic in its state plus these oracles, exactly as the
  Python control flow is.
-/

/-- The global `STATE` dict of the bot (lines 41-47 of the source):
strategy parameters plus the position fields. -/
structure BotState where
  buy_drop_pct : ℚ
  take_profit_pct : ℚ
  holding : Bool
  last_buy_price : Option ℚ
  position_amount_sol : ℚ
deriving DecidableEq, Repr

/-- The initial `STATE` literal: `buy_drop_pct = 5.0`, `take_profit_pct = 2.0`,
`holding = False`, `last_buy_price = None`, `position_amount_sol = 0.0`. -/
def initialState : BotState :=
  { buy_drop_pct := 5
    take_profit_pct := 2
    holding := false
    last_buy_price := none
    position_amount_sol := 0 }

/-- Python truthiness of an optional float: `None` and `0.0` are falsy,
every other float is truthy.  Used by `if STATE["holding"] and
STATE["last_buy_price"]:` on line 226. -/
def truthyOptQ : Option ℚ → Bool
  | none => false
  | some p => decide (p ≠ 0)

/-- `/setbuy <pct>` handler (`setbuy_cmd`, lines 165-171): stores
`float(context.args[0])` into `STATE["buy_drop_pct"]` — any float,
negative values included, is accepted. -/
def setbuy_cmd (s : BotState) (v : ℚ) : BotState :=
  { s with buy_drop_pct := v }

/-- `/settp <pct>` handler (`settp_cmd`, lines 173-179): stores
`float(context.args[0])` into `STATE["take_profit_pct"]`. -/
def settp_cmd (s : BotState) (v : ℚ) : BotState :=
  { s with take_profit_pct := v }

/-- `/manualbuy` handler (`manualbuy_cmd`, lines 186-199): invokes
`buy_with_usdc` and reports the result, but never writes to `STATE`;
as a state transformer it is the identity. -/
def manualbuy_cmd (s : BotState) : BotState := s

/-- `/manualsell` handler (`manualsell_cmd`, lines 201-202): only replies
with a placeholder message; as a state transformer it is the identity. -/
def manualsell_cmd (s : BotState) : BotState := s

/-- The buy trigger of `monitor_task` (line 213):
`(not STATE["holding"]) and (pct24 <= -abs(STATE["buy_drop_pct"]))`. -/
def buyCond (s : BotState) (pct24 : ℚ) : Bool :=
  !s.holding && decide (pct24 ≤ -|s.buy_drop_pct|)

/-- The take-profit trigger of `monitor_task` (lines 226-228):
`STATE["holding"] and STATE["last_buy_price"]` guards the branch (Python
truthiness), then `price >= STATE["last_buy_price"] * (1.0 +
STATE["take_profit_pct"] / 100.0)` decides the sell. -/
def sellCond (s : BotState) (price : ℚ) : Bool :=
  s.holding && truthyOptQ s.last_buy_price &&
    decide (s.last_buy_price.getD 0 * (1 + s.take_profit_pct / 100) ≤ price)

/-- The state update of a successful buy (lines 220-222): sets
`holding = True`, `last_buy_price = price`, `position_amount_sol = 0.0`
(the source writes the constant `0.0` with the comment
`set real amount from swap result`; the filled amount of the swap result,
here the `some` payload of `buyRes`, is discarded).  A raising buy
(`buyRes = none`) leaves the state untouched (lines 223-224). -/
def applyBuy (s : BotState) (price : ℚ) (buyRes : Option ℚ) : BotState :=
  match buyRes with
  | some _ =>
      { s with holding := true, last_buy_price := some price,
               position_amount_sol := 0 }
  | none => s

/-- The state update of the take-profit branch (lines 228-234): when
`sellCond` holds the position is cleared — `holding = False`,
`last_buy_price = None`, `position_amount_sol = 0.0` — without any sell
execution being invoked (the source comment reads
`call sell flow (not implemented fully here)`). -/
def applySell (s : BotState) (price : ℚ) : BotState :=
  if sellCond s price then
    { s with holding := false, last_buy_price := none,
             position_amount_sol := 0 }
  else s

/-- The USDC amount `monitor_task` passes to `buy_with_usdc` on line 217:
the literal `usdc_amount=5.0` (source comment:
`Example: buy with 5 USDC (adjust)`). -/
def monitorBuyAmount : ℚ := 5

/-- One iteration of the `monitor_task` loop body (lines 208-237) after a
successful price fetch.  Inputs: the current state, the snapshot
(`price`, `pct24`), and the outcome of `buy_with_usdc` when it is invoked
(`buyRes = some filled` for a result carrying filled output `filled`,
`none` when the call raises; the inner `try/except` swallows the raise).
Returns the new state together with the USDC amount passed to
`buy_with_usdc` when the buy branch fired (`none` when no execution was
invoked this tick — the source invokes no other execution: the sell flow
is not implemented).  The take-profit check runs after the buy branch, on
the updated state, exactly as the two successive `if`s do in the source. -/
def monitor_step (s : BotState) (price pct24 : ℚ) (buyRes : Option ℚ) :
    BotState × Option ℚ :=
  if buyCond s pct24 then
    (applySell (applyBuy s price buyRes) price, some monitorBuyAmount)
  else
    (applySell s price, none)

/-- States reachable from the startup `STATE` through the strategy loop
(`monitor_task` iterations over arbitrary snapshots and buy outcomes) and
the Telegram command handlers. -/
inductive Reachable : BotState → Prop
  | init : Reachable initialState
  | monitor {s : BotState} (price pct24 : ℚ) (buyRes : Option ℚ) :
      Reachable s → Reachable (monitor_step s price pct24 buyRes).fst
  | setbuy {s : BotState} (v : ℚ) : Reachable s → Reachable (setbuy_cmd s v)
  | settp {s : BotState} (v : ℚ) : Reachable s → Reachable (settp_cmd s v)
  | manualbuy {s : BotState} : Reachable s → Reachable (manualbuy_cmd s)
  | manualsell {s : BotState} : Reachable s → Reachable (manualsell_cmd s)

/-! ## The buy execution pipeline (`buy_with_usdc`, lines 111-157) -/

/-- Result of `buy_with_usdc` when it returns: either the dry-run dict
`{"simulated": True, "usdc": usdc_amount}` or whatever the optional
Jupiter SDK returned (opaque here). -/
inductive BuyResult where
  | simulated (usdc : ℚ)
  | sdkRes (r : Nat)
deriving DecidableEq, Repr

/-- External observations of one `buy_with_usdc` call: the Jupiter quote
request (with the smallest-unit amount), the SDK swap call (the SDK
`handles signing + sending` internally), and the Jupiter `/swap` build
request of the manual path.  No constructor for a signing step exists:
the source never reaches one — the manual path raises before signing. -/
inductive BuyEvent where
  | quoteRequest (amountNative : ℤ)
  | sdkSwapCall
  | swapRequest
deriving DecidableEq, Repr

/-- Environment oracle for one `buy_with_usdc` call: whether the Jupiter
quote response has a truthy `data` field, whether the optional SDK import
succeeded (`HAVE_JUPITER_SDK`), the SDK swap outcome (`none` = the SDK
call raised), and the `swapTransaction` payload of the `/swap` response
(`none` = absent). -/
structure BuyEnv where
  quoteHasData : Bool
  haveSdk : Bool
  sdkSwapResult : Option Nat
  swapTxPayload : Option String
deriving DecidableEq, Repr

/-- `int(Decimal(usdc_amount) * (10 ** 6))` of line 118: conversion of a
USDC amount to smallest units.  Python `int()` truncates toward zero,
which coincides with `Rat.floor` on the non-negative amounts the bot
uses. -/
def usdcNativeUnits (usdc : ℚ) : ℤ := (usdc * 10 ^ 6).floor

def errNoQuote : String := "No quote data returned from Jupiter"

def errSdkSwap : String := "SDK swap failed"

def errNoTxPayload : String :=
  "Jupiter /swap did not return a transaction payload"

def errManualSigning : String :=
  "Manual signing of Jupiter versioned txns is advanced. Use jupiter-python-sdk or follow Jupiter docs. See comments in code."

/-- `buy_with_usdc` (lines 111-157) as a function of the dry-run flag, the
environment oracle and the USDC amount; returns the call's outcome
together with the list of external requests it made, in order.
Control flow of the source: the `DRY_RUN` check comes first and returns
the simulated dict before any quote, SDK or signing step; otherwise the
quote is fetched and checked for `data`; with the SDK present the swap is
delegated to it; the manual REST path requests the swap payload,
base64-decodes and deserializes it (deserialization by the external
`solders` library is not modelled), and then unconditionally raises
`errManualSigning` — the source contains no signing code. -/
def buy_with_usdc (dryRun : Bool) (env : BuyEnv) (usdcAmount : ℚ) :
    Except String BuyResult × List BuyEvent :=
  if dryRun then
    (Except.ok (BuyResult.simulated usdcAmount), [])
  else
    let amountInt := usdcNativeUnits usdcAmount
    let evQuote := [BuyEvent.quoteRequest amountInt]
    if !env.quoteHasData then
      (Except.error errNoQuote, evQuote)
    else if env.haveSdk then
      match env.sdkSwapResult with
      | some r => (Except.ok (BuyResult.sdkRes r), evQuote ++ [BuyEvent.sdkSwapCall])
      | none => (Except.error errSdkSwap, evQuote ++ [BuyEvent.sdkSwapCall])
    else
      match env.swapTxPayload with
      | none => (Except.error errNoTxPayload, evQuote ++ [BuyEvent.swapRequest])
      | some _ => (Except.error errManualSigning, evQuote ++ [BuyEvent.swapRequest])

/-! ## Credential loading (`load_keypair`, lines 58-67) -/

/-- Which credential source `load_keypair` ends up using. -/
inductive KeySource where
  | b58 (secret : String)
  | jsonArr (path : String)
deriving DecidableEq, Repr

/-- Python truthiness of an optional environment string: unset (`None`) and
the empty string are falsy. -/
def truthyOptStr : Option String → Bool
  | none => false
  | some s => decide (s ≠ "")

def errNoKey : String :=
  "No PRIVATE_KEY configured. Set PRIVATE_KEY_JSON or PRIVATE_KEY_B58"

/-- `load_keypair` (lines 58-67) as a function of the two environment
variables and whether the keypair file exists: `if PRIVATE_KEY_B58:`
decodes and returns it first; otherwise
`if PRIVATE_KEY_JSON and os.path.exists(PRIVATE_KEY_JSON):` loads the
JSON array file; otherwise it raises.  (`Keypair.from_bytes` of the
external `solders` library is not modelled.) -/
def load_keypair (b58 jsonPath : Option String) (fileExists : Bool) :
    Except String KeySource :=
  if truthyOptStr b58 then
    Except.ok (KeySource.b58 (b58.getD ""))
  else if truthyOptStr jsonPath && fileExists then
    Except.ok (KeySource.jsonArr (jsonPath.getD ""))
  else
    Except.error errNoKey

/-- Whether an `Except` is an error. -/
def isErr {ε α : Type} : Except ε α → Bool
  | Except.error _ => true
  | Except.ok _ => false

/-! ## Supporting lemmas -/

theorem applyBuy_inv (s : BotState) (price : ℚ) (r : Option ℚ)
    (h : s.last_buy_price.isSome = s.holding) :
    (applyBuy s price r).last_buy_price.isSome = (applyBuy s price r).holding := by
  cases r with
  | none => exact h
  | some f => rfl

theorem applySell_inv (s : BotState) (price : ℚ)
    (h : s.last_buy_price.isSome = s.holding) :
    (applySell s price).last_buy_price.isSome = (applySell s price).holding := by
  unfold applySell
  split
  · rfl
  · exact h

/-- A buy attempt that raises (`buyRes = none`) leaves the whole state
unchanged: the `except` branch on lines 223-224 performs no write, and
with `holding = false` the take-profit branch cannot fire either. -/
theorem buy_failure_leaves_state_unchanged (s : BotState) (price pct24 : ℚ)
    (hh : s.holding = false) :
    (monitor_step s price pct24 none).fst = s := by
  have hsell : sellCond s price = false := by simp [sellCond, hh]
  have hs : applySell s price = s := by simp [applySell, hsell]
  unfold monitor_step
  split
  · simpa [applyBuy] using hs
  · simpa using hs

/-! ## Claims -/

/-- Claim C1: with the dry-run flag configured, `buy_with_usdc` returns the
`Simulated` result for every input amount and every environment, and its
list of external requests is empty — in particular no quote, no SDK call,
no swap-build request and no signing step is ever reached. -/
theorem c1_dry_run_returns_simulated (env : BuyEnv) (usdcAmount : ℚ) :
    buy_with_usdc true env usdcAmount =
      (Except.ok (BuyResult.simulated usdcAmount), ([] : List BuyEvent)) := rfl

/-- Claim C2 (code bug, evaluation at the failing input): in the state
`holding = true`, `last_buy_price = 100`, `take_profit_pct = 2`,
`position_amount_sol = 1`, an incoming price of `102` reaches the
take-profit target, and the loop clears the position (`holding = false`,
`last_buy_price = none`) while invoking no sell execution at all (the
request component is `none`): a failed sell can therefore never leave the
position open, because no sell is ever attempted before the clear. -/
theorem c2_sell_clears_without_attempt :
    (monitor_step ⟨5, 2, true, some 100, 1⟩ 102 0 none).fst =
      ⟨5, 2, false, none, 0⟩ ∧
    (monitor_step ⟨5, 2, true, some 100, 1⟩ 102 0 none).snd = none := by
  have hb : buyCond ⟨5, 2, true, some 100, 1⟩ 0 = false := by
    simp [buyCond]
  have hsell : sellCond ⟨5, 2, true, some 100, 1⟩ 102 = true := by
    norm_num [sellCond, truthyOptQ]
  have hstep : monitor_step ⟨5, 2, true, some 100, 1⟩ 102 0 none =
      (⟨5, 2, false, none, 0⟩, none) := by
    unfold monitor_step
    rw [hb]
    simp [applySell, hsell]
  exact ⟨by rw [hstep], by rw [hstep]⟩

/-- Claim C3 (counterexample): in the Holding state with `entry_price` set
to `0` and `take_profit_pct = 2`, the incoming price `1` satisfies
`price >= entry_price * (1 + take_profit_pct/100)`, yet no sell is issued:
Python truthiness of `STATE["last_buy_price"]` (line 226) treats the set
value `0.0` as falsy and skips the take-profit branch entirely. -/
theorem c3_counterexample :
    sellCond ⟨5, 2, true, some 0, 0⟩ 1 = false ∧
      (0 : ℚ) * (1 + 2 / 100) ≤ 1 := by
  constructor
  · norm_num [sellCond, truthyOptQ]
  · norm_num

/-- Claim C3 (amended): for every Holding state whose `entry_price` is set
to a non-zero value, a sell is issued if and only if
`price >= entry_price * (1 + take_profit_pct/100)`, with equality at the
boundary triggering the sell. -/
theorem c3_tp_boundary (s : BotState) (price p0 : ℚ)
    (hh : s.holding = true) (hp : s.last_buy_price = some p0)
    (h0 : p0 ≠ 0) :
    sellCond s price = true ↔
      p0 * (1 + s.take_profit_pct / 100) ≤ price := by
  simp [sellCond, hh, hp, truthyOptQ, h0]

/-- Claim C3 witness: `entry_price = 100`, `take_profit_pct = 2`, price
exactly at the boundary `102 = 100 * (1 + 2/100)` — the sell fires. -/
theorem c3_tp_boundary_witness :
    sellCond ⟨5, 2, true, some 100, 0⟩ 102 = true ↔
      (100 : ℚ) * (1 + (2 : ℚ) / 100) ≤ 102 :=
  c3_tp_boundary ⟨5, 2, true, some 100, 0⟩ 102 100 rfl rfl (by norm_num)

/-- Modelled from the spec: `StrategyParameters.trade_size`, the configured
trade size (`decimal > 0`, mutable only via the Control Surface), is absent
from the source `STATE` dict; the spec treats it as authoritative for the
buy quantity.  A representative configured value used to test claim C4. -/
def trade_size_spec : ℚ := 7

/-- Claim C4 (counterexample): from the Flat startup state, a snapshot with
`change_24h_pct = -10` fires the buy branch, and the quantity passed to
`buy_with_usdc` is the literal `5.0` of line 217, not the configured trade
size (here `7`): the claim "quantity equal to
`StrategyParameters.trade_size`" fails. -/
theorem c4_counterexample :
    (monitor_step initialState 100 (-10) (some 3)).snd =
      some monitorBuyAmount ∧ monitorBuyAmount ≠ trade_size_spec := by
  decide

/-- Claim C4 (amended): for every snapshot observed while Flat with
`change_24h_pct <= -buy_drop_pct` (given `buy_drop_pct > 0`, the spec's
parameter constraint), the loop invokes the buy execution with quantity
equal to the constant `5.0` USDC, independent of any configured trade
size. -/
theorem c4_buy_amount_constant (s : BotState) (price pct24 : ℚ)
    (buyRes : Option ℚ) (hd : 0 < s.buy_drop_pct) (hh : s.holding = false)
    (hc : pct24 ≤ -s.buy_drop_pct) :
    (monitor_step s price pct24 buyRes).snd = some 5 := by
  have habs : |s.buy_drop_pct| = s.buy_drop_pct := abs_of_pos hd
  have hb : buyCond s pct24 = true := by
    simp [buyCond, hh, habs, hc]
  simp [monitor_step, hb, monitorBuyAmount]

/-- Claim C4 witness: Flat startup state, snapshot change `-10` against
`buy_drop_pct = 5` — the buy fires with amount `5`. -/
theorem c4_buy_amount_constant_witness :
    (monitor_step initialState 100 (-10) (some 3)).snd = some 5 :=
  c4_buy_amount_constant initialState 100 (-10) (some 3) (by decide) rfl
    (by decide)

/-- Claim C5: with `buy_drop_pct > 0`, every snapshot with
`change_24h_pct > -buy_drop_pct` observed while Flat issues no buy (no
execution request is made this tick). -/
theorem c5_no_buy_above_threshold (s : BotState) (price pct24 : ℚ)
    (buyRes : Option ℚ) (hd : 0 < s.buy_drop_pct) (hh : s.holding = false)
    (hc : -s.buy_drop_pct < pct24) :
    (monitor_step s price pct24 buyRes).snd = none := by
  have habs : |s.buy_drop_pct| = s.buy_drop_pct := abs_of_pos hd
  have hnle : ¬ pct24 ≤ -s.buy_drop_pct := not_le.mpr hc
  have hb : buyCond s pct24 = false := by
    simp [buyCond, hh, habs, hnle]
  simp [monitor_step, hb]

/-- Claim C5 witness: Flat startup state (`buy_drop_pct = 5`), snapshot
change `-4 > -5` — no buy is issued. -/
theorem c5_no_buy_above_threshold_witness :
    (monitor_step initialState 100 (-4) (some 3)).snd = none :=
  c5_no_buy_above_threshold initialState 100 (-4) (some 3) (by decide) rfl
    (by decide)

/-- Claim C6 (code bug, evaluation at the failing input): a triggered buy
(Flat state, price `150`, change `-6`) whose result carries filled output
amount `3` transitions to Holding with `entry_price = 150` as claimed, but
`position_amount_sol` is set to the constant `0.0` (line 222, against its
own comment `set real amount from swap result`), not to the filled output
amount. -/
theorem c6_entry_quantity_zeroed :
    (monitor_step initialState 150 (-6) (some 3)).fst.holding = true ∧
    (monitor_step initialState 150 (-6) (some 3)).fst.last_buy_price =
      some 150 ∧
    (monitor_step initialState 150 (-6) (some 3)).fst.position_amount_sol
      = 0 ∧
    (monitor_step initialState 150 (-6) (some 3)).fst.position_amount_sol
      ≠ 3 := by
  have h5 : |(5 : ℚ)| = 5 := abs_of_pos (by norm_num)
  have hb : buyCond initialState (-6) = true := by
    norm_num [buyCond, initialState, h5]
  have happly : applyBuy initialState 150 (some 3) =
      ⟨5, 2, true, some 150, 0⟩ := rfl
  have hsell : sellCond ⟨5, 2, true, some 150, 0⟩ 150 = false := by
    norm_num [sellCond, truthyOptQ]
  have hstep : monitor_step initialState 150 (-6) (some 3) =
      (⟨5, 2, true, some 150, 0⟩, some 5) := by
    unfold monitor_step
    rw [hb, happly]
    simp [applySell, hsell, monitorBuyAmount]
  refine ⟨?_, ?_, ?_, ?_⟩ <;> rw [hstep]
  norm_num

/-- Claim C7: in every state reachable from the startup `STATE` through
strategy-loop iterations and the command handlers, `last_buy_price` is set
(`isSome`) if and only if `holding` is true. -/
theorem c7_position_invariant (s : BotState) (h : Reachable s) :
    s.last_buy_price.isSome = s.holding := by
  induction h with
  | init => rfl
  | monitor price pct24 buyRes _ ih =>
      unfold monitor_step
      split
      · exact applySell_inv _ _ (applyBuy_inv _ _ _ ih)
      · exact applySell_inv _ _ ih
  | setbuy v _ ih => simpa [setbuy_cmd] using ih
  | settp v _ ih => simpa [settp_cmd] using ih
  | manualbuy _ ih => exact ih
  | manualsell _ ih => exact ih

/-- Claim C7 witness: the startup state is reachable and satisfies the
invariant (`last_buy_price = none`, `holding = false`). -/
theorem c7_position_invariant_witness :
    initialState.last_buy_price.isSome = initialState.holding :=
  c7_position_invariant initialState Reachable.init

/-- Claim C8 (code bug): with dry-run off, a quote with data, the SDK
absent and a swap-transaction payload present — i.e. a valid quote on the
manual build-and-sign path — `buy_with_usdc` always raises the
`Manual signing of Jupiter versioned txns is advanced` error instead of
producing a signed transaction: the source contains no signing code at
all. -/
theorem c8_manual_signing_always_errors (env : BuyEnv) (usdcAmount : ℚ)
    (hq : env.quoteHasData = true) (hsdk : env.haveSdk = false)
    (hp : env.swapTxPayload.isSome = true) :
    (buy_with_usdc false env usdcAmount).fst =
      Except.error errManualSigning := by
  obtain ⟨p, hp2⟩ := Option.isSome_iff_exists.mp hp
  simp [buy_with_usdc, hq, hsdk, hp2]

/-- Claim C8 witness: a concrete valid quote with a payload present on the
manual path — the call errors. -/
theorem c8_manual_signing_always_errors_witness :
    (buy_with_usdc false ⟨true, false, none, some "QUJD"⟩ 5).fst =
      Except.error errManualSigning :=
  c8_manual_signing_always_errors ⟨true, false, none, some "QUJD"⟩ 5 rfl
    rfl rfl

/-- Claim C9 (counterexample): with both credential sources configured
(`PRIVATE_KEY_B58` and `PRIVATE_KEY_JSON` both set and non-empty, the
keypair file present), `load_keypair` succeeds — the base58 source
silently takes precedence — whereas the claim says two configured sources
is a startup-fatal error. -/
theorem c9_counterexample :
    isErr (load_keypair (some "k") (some "p") true) = false ∧
      truthyOptStr (some "k") = true ∧ truthyOptStr (some "p") = true := by
  decide

/-- Claim C9 (amended): `load_keypair` fails if and only if no usable
credential source is configured: the encoded secret string is unset or
empty, and the keypair-file path is unset, empty, or names a missing
file.  When both sources are configured, the encoded secret string takes
precedence and loading succeeds. -/
theorem c9_load_keypair_error_iff (b58 jsonPath : Option String)
    (fileOk : Bool) :
    isErr (load_keypair b58 jsonPath fileOk) = true ↔
      truthyOptStr b58 = false ∧
        (truthyOptStr jsonPath = false ∨ fileOk = false) := by
  cases hb : truthyOptStr b58 <;> cases hj : truthyOptStr jsonPath <;>
    cases hf : fileOk <;> simp [load_keypair, isErr, hb, hj, hf]

/-- Claim C10: the buy trigger compares against `-abs(buy_drop_pct)`
(line 213), so it is insensitive to the sign of the value stored by
`/setbuy`: for every state, snapshot change and parameter value `v`, the
trigger after `setbuy v` equals the trigger after `setbuy (-v)`. -/
theorem c10_buy_trigger_sign_insensitive (s : BotState) (pct24 v : ℚ) :
    buyCond (setbuy_cmd s v) pct24 = buyCond (setbuy_cmd s (-v)) pct24 := by
  simp [buyCond, setbuy_cmd, abs_neg]
